import Mathlib

/-!
# Shallow embedding of `src/src/cdn_manager.py` (BlackRoad CDN Manager)

The program is a SQLite-backed store with three tables (`cdn_origins`,
`cache_rules`, `purge_events`) and the operations `add_origin`,
`list_origins`, `add_cache_rule`, `purge_cache`, `cdn_status`,
`export_json` of class `CDNManager`.

Modelling choices, traced from the source:

* A table is a list of rows in insertion (rowid) order; `AUTOINCREMENT`
  primary keys are modelled by an explicit per-table counter that starts
  at 1 (SQLite rowids start at 1) and never decreases, matching SQLite's
  `AUTOINCREMENT` guarantee that ids of deleted rows are not reused
  (no delete operation exists anyway).

* Timestamps.  The program writes timestamps from two distinct sources:
  - `datetime.now().isoformat()` (Python, local time, rendered like
    `"2026-10-12T14:30:12.123456"` — a `'T'` at index 10), used for
    `purge_cache`'s `ts` and for `export_json`'s `exported_at`;
  - the column default `CURRENT_TIMESTAMP` / `datetime('now', ...)`
    (SQLite, UTC, rendered like `"2026-10-12 14:30:12"` — a space at
    index 10), used for every stored `created_at`.
  Both are stored as TEXT.  We model a timestamp string as an inductive
  carrying its source format together with the clock reading in seconds:
  `Timestamp.pyLocal t` and `Timestamp.sqlUtc t`.  Two strings from
  different sources are never equal (the character at index 10 differs:
  `'T'` vs `' '`), which `DecidableEq` on the inductive reflects.
  Sub-second digits of the Python format are not modelled; no claim
  depends on ordering two Python-format strings from the same second.

* SQLite compares TEXT with binary (byte-wise) ordering.  For two
  same-format timestamp strings this is exactly the order of the clock
  readings (fixed-width fields, most significant first).  For the mixed
  case the strings share the `"YYYY-MM-DD"` prefix layout and then differ
  at index 10, where `' '` (0x20) sorts before `'T'` (0x54); so a
  SQLite-format string compares below a Python-format string of the same
  calendar day, and otherwise the day prefixes decide.  `Timestamp.strLe`
  below implements exactly this (day = reading / 86400).  Within the
  store only `sqlUtc` values ever reach a comparison, so the mixed cases
  are present only to keep the order total.

* SQLite foreign keys are NOT enforced: the program never issues
  `PRAGMA foreign_keys = ON`, so the `REFERENCES` clauses in the schema
  are inert and inserts with a dangling `origin_id` succeed.

* Each operation takes the current clock reading `now : Nat` as an
  explicit argument; within one operation the Python clock read and the
  SQLite clock read are idealised to the same instant (in the program
  they are microseconds apart, which only makes the timestamp-equality
  findings below conservative).
-/

/-- A stored timestamp string, tagged with which of the two clock/format
sources produced it (see header comment): `pyLocal t` is
`datetime.now().isoformat()` at clock reading `t` (seconds), `sqlUtc t`
is SQLite's `CURRENT_TIMESTAMP` / `datetime('now',...)` at reading `t`. -/
inductive Timestamp where
  | pyLocal (t : Nat)
  | sqlUtc (t : Nat)
  deriving DecidableEq, Repr

namespace Timestamp

/-- The clock reading carried by a timestamp. -/
def instant : Timestamp → Nat
  | .pyLocal t => t
  | .sqlUtc t => t

/-- Whether the timestamp is in SQLite `CURRENT_TIMESTAMP` format. -/
def isSqlUtc : Timestamp → Bool
  | .pyLocal _ => false
  | .sqlUtc _ => true

/-- SQLite binary (byte-wise) string ordering of the rendered timestamp
strings.  Same format: fixed-width fields compare as the readings.  Mixed
formats: the `"YYYY-MM-DD"` day prefixes compare first, and on equal days
the character at index 10 decides, `' '` (SQLite) below `'T'` (Python). -/
def strLe : Timestamp → Timestamp → Bool
  | .sqlUtc a, .sqlUtc b => a ≤ b
  | .pyLocal a, .pyLocal b => a ≤ b
  | .sqlUtc a, .pyLocal b => a / 86400 ≤ b / 86400
  | .pyLocal a, .sqlUtc b => a / 86400 < b / 86400

end Timestamp

/-- Mirror of the `CDNOrigin` dataclass / a row of `cdn_origins`.  Rows
always carry an id and a `created_at` (the column default fills it), and
`last_purge` is nullable; the dataclass is only ever instantiated from a
stored row (`_get_origin`, `list_origins`), so one type serves both. -/
structure CDNOrigin where
  id : Nat
  name : String
  origin_url : String
  cdn_url : String
  provider : String
  status : String
  cache_ttl : Int
  notes : String
  created_at : Timestamp
  last_purge : Option Timestamp
  deriving DecidableEq, Repr

/-- A stored row of `cache_rules`: `created_at` is always filled by the
column default `CURRENT_TIMESTAMP`. -/
structure CacheRuleRow where
  id : Nat
  origin_id : Nat
  path_pattern : String
  ttl : Int
  cache_headers : Bool
  rule_type : String
  created_at : Timestamp
  deriving DecidableEq, Repr

/-- Mirror of the `CacheRule` dataclass as returned by `add_cache_rule`:
the constructor call there omits `created_at`, so it defaults to `None` —
hence the `Option` here, unlike the stored row. -/
structure CacheRule where
  id : Nat
  origin_id : Nat
  path_pattern : String
  ttl : Int
  cache_headers : Bool
  rule_type : String
  created_at : Option Timestamp
  deriving DecidableEq, Repr

/-- A stored row of `purge_events`: `created_at` is always filled by the
column default `CURRENT_TIMESTAMP`. -/
structure PurgeEventRow where
  id : Nat
  origin_id : Nat
  purge_type : String
  target : String
  status : String
  triggered_by : String
  created_at : Timestamp
  deriving DecidableEq, Repr

/-- Mirror of the `PurgeEvent` dataclass as returned by `purge_cache`:
there `created_at` is set to `ts = datetime.now().isoformat()`. -/
structure PurgeEvent where
  id : Nat
  origin_id : Nat
  purge_type : String
  target : String
  status : String
  triggered_by : String
  created_at : Timestamp
  deriving DecidableEq, Repr

/-- The persisted store: the three tables in rowid (insertion) order plus
the three `AUTOINCREMENT` counters (next id to assign). -/
structure DB where
  origins : List CDNOrigin
  cache_rules : List CacheRuleRow
  purge_events : List PurgeEventRow
  next_origin_id : Nat
  next_rule_id : Nat
  next_purge_id : Nat
  deriving DecidableEq, Repr

/-- The store `_init_db` creates on a fresh database file: three empty
tables, `AUTOINCREMENT` ids starting at 1. -/
def initialDB : DB :=
  { origins := [], cache_rules := [], purge_events := []
    next_origin_id := 1, next_rule_id := 1, next_purge_id := 1 }

/-- The error taxonomy surfaced by the store: `sqlite3.IntegrityError`
raised by the `UNIQUE` constraint on `cdn_origins.name`. -/
inductive DBError where
  | uniqueConstraint
  deriving DecidableEq, Repr

/-- `list_origins`'s `ORDER BY name`: ascending byte-wise lexicographic
order on `name` (SQLite BINARY collation on TEXT). -/
def sortByName (l : List CDNOrigin) : List CDNOrigin :=
  l.insertionSort (fun a b => a.name ≤ b.name)

/-- `CDNManager.list_origins(provider)`.  The Python guard `if provider:`
is falsy for both `None` and the empty string, so only a non-empty
provider adds the `WHERE provider = ?` clause; then `ORDER BY name`. -/
def list_origins (db : DB) (provider : Option String) : List CDNOrigin :=
  let rows := match provider with
    | some p => if p ≠ "" then db.origins.filter (fun o => o.provider = p) else db.origins
    | none => db.origins
  sortByName rows

/-- `CDNManager._get_origin(origin_id)`: `SELECT * FROM cdn_origins WHERE
id = ?` then `fetchone()` — the first row with that id, if any. -/
def getOrigin (db : DB) (origin_id : Nat) : Option CDNOrigin :=
  db.origins.find? (fun o => o.id = origin_id)

/-- `CDNManager.add_origin`.  The `INSERT` hits the `UNIQUE` constraint on
`name` when a row with that exact name exists (`sqlite3.IntegrityError`,
uncaught; the connection context manager rolls back, leaving the store
unchanged).  Otherwise the row is inserted with the column defaults
`status='active'`, `created_at=CURRENT_TIMESTAMP`, `last_purge=NULL`, and
the function returns `_get_origin(cur.lastrowid)`. -/
def add_origin (db : DB) (now : Nat) (name origin_url cdn_url provider : String)
    (cache_ttl : Int) (notes : String) : Except DBError (Option CDNOrigin) × DB :=
  if db.origins.any (fun o => o.name = name) then
    (.error .uniqueConstraint, db)
  else
    let row : CDNOrigin :=
      { id := db.next_origin_id, name, origin_url, cdn_url, provider
        status := "active", cache_ttl, notes
        created_at := .sqlUtc now, last_purge := none }
    let db' : DB := { db with
      origins := db.origins ++ [row]
      next_origin_id := db.next_origin_id + 1 }
    (.ok (getOrigin db' db.next_origin_id), db')

/-- `CDNManager.add_cache_rule`.  Foreign keys are unenforced (see header
comment), so the `INSERT` succeeds for any `origin_id`.  The returned
dataclass is built by hand and omits `created_at` (so it is `None`),
while the stored row's `created_at` is the column default. -/
def add_cache_rule (db : DB) (now : Nat) (origin_id : Nat) (path_pattern : String)
    (ttl : Int) (cache_headers : Bool) (rule_type : String) : CacheRule × DB :=
  let row : CacheRuleRow :=
    { id := db.next_rule_id, origin_id, path_pattern, ttl, cache_headers
      rule_type, created_at := .sqlUtc now }
  let ret : CacheRule :=
    { id := db.next_rule_id, origin_id, path_pattern, ttl, cache_headers
      rule_type, created_at := none }
  (ret, { db with
    cache_rules := db.cache_rules ++ [row]
    next_rule_id := db.next_rule_id + 1 })

/-- The purge-event row `purge_cache`'s `INSERT` stores: `status` is the
literal `'queued'`, and `created_at` is NOT passed — the column default
`CURRENT_TIMESTAMP` fills it (not the Python `ts`). -/
def purgeRow (db : DB) (now : Nat) (origin_id : Nat)
    (purge_type target triggered_by : String) : PurgeEventRow :=
  { id := db.next_purge_id, origin_id, purge_type, target
    status := "queued", triggered_by, created_at := .sqlUtc now }

/-- The origin-table effect of `purge_cache`'s `UPDATE cdn_origins SET
last_purge = ? WHERE id = ?`: every row with the given id gets
`last_purge = ts` (`ts = datetime.now().isoformat()`); a nonexistent id
matches no row and the update is a silent no-op. -/
def stampLastPurge (origins : List CDNOrigin) (ts : Timestamp) (origin_id : Nat) :
    List CDNOrigin :=
  origins.map (fun o => if o.id = origin_id then { o with last_purge := some ts } else o)

/-- `CDNManager.purge_cache`: inside one connection, `INSERT` the purge
event, `UPDATE` the origin's `last_purge` to `ts`, commit; return a
`PurgeEvent` built by hand with `created_at = ts`. -/
def purge_cache (db : DB) (now : Nat) (origin_id : Nat)
    (purge_type target triggered_by : String) : PurgeEvent × DB :=
  let ts : Timestamp := .pyLocal now
  let row := purgeRow db now origin_id purge_type target triggered_by
  let ret : PurgeEvent :=
    { id := row.id, origin_id, purge_type, target
      status := "queued", triggered_by, created_at := ts }
  (ret, { db with
    purge_events := db.purge_events ++ [row]
    origins := stampLastPurge db.origins ts origin_id
    next_purge_id := db.next_purge_id + 1 })

/-- One step of `cdn_status`'s Python dict accumulation
`d[k] = d.get(k, 0) + 1`: bump the entry for `k`, or append `(k, 1)` in
insertion order when `k` is new (Python dicts keep insertion order). -/
def bumpCount : List (String × Nat) → String → List (String × Nat)
  | [], k => [(k, 1)]
  | (k', n) :: rest, k =>
      if k' = k then (k', n + 1) :: rest else (k', n) :: bumpCount rest k

/-- The dict returned by `cdn_status`. -/
structure StatusSummary where
  total_origins : Nat
  total_rules : Nat
  total_purges : Nat
  purges_24h : Nat
  by_provider : List (String × Nat)
  by_status : List (String × Nat)
  deriving DecidableEq, Repr

/-- `CDNManager.cdn_status`.  `purges_24h` is
`SELECT COUNT(*) FROM purge_events WHERE created_at > datetime('now','-1 day')`:
a byte-wise TEXT comparison of the stored string against the cutoff
string, which is SQLite format at reading `now - 86400` — hence the
`Timestamp.strLe` negation below.  `by_provider` / `by_status` fold the
listed origins through the dict accumulation. -/
def cdn_status (db : DB) (now : Nat) : StatusSummary :=
  let origins := list_origins db none
  { total_origins := origins.length
    total_rules := db.cache_rules.length
    total_purges := db.purge_events.length
    purges_24h :=
      (db.purge_events.filter
        (fun e => ! e.created_at.strLe (.sqlUtc (now - 86400)))).length
    by_provider := origins.foldl (fun m o => bumpCount m o.provider) []
    by_status := origins.foldl (fun m o => bumpCount m o.status) [] }

/-- `export_json`'s `ORDER BY created_at DESC`: descending byte-wise TEXT
order on the stored `created_at` strings. -/
def sortByCreatedDesc (l : List PurgeEventRow) : List PurgeEventRow :=
  l.insertionSort (fun a b => b.created_at.strLe a.created_at)

/-- The payload `export_json` serialises (writing it to a file is the
out-of-scope collaborator). -/
structure ExportPayload where
  exported_at : Timestamp
  origins : List CDNOrigin
  cache_rules : List CacheRuleRow
  recent_purge_events : List PurgeEventRow
  deriving DecidableEq, Repr

/-- `CDNManager.export_json`: `exported_at = datetime.now().isoformat()`,
all origins via `list_origins()`, all cache rules in rowid order
(`SELECT * FROM cache_rules`), and
`SELECT * FROM purge_events ORDER BY created_at DESC LIMIT 100`. -/
def export_json (db : DB) (now : Nat) : ExportPayload :=
  { exported_at := .pyLocal now
    origins := list_origins db none
    cache_rules := db.cache_rules
    recent_purge_events := (sortByCreatedDesc db.purge_events).take 100 }

/-- The two writes `purge_cache` issues inside its single
`with sqlite3.connect(...)` block, in program order. -/
inductive PurgeWrite where
  | insertEvent (row : PurgeEventRow)
  | stampOrigin (ts : Timestamp) (origin_id : Nat)
  deriving DecidableEq, Repr

/-- Effect of one `purge_cache` write on the store. -/
def applyPurgeWrite (db : DB) : PurgeWrite → DB
  | .insertEvent row =>
      { db with purge_events := db.purge_events ++ [row]
                next_purge_id := db.next_purge_id + 1 }
  | .stampOrigin ts origin_id =>
      { db with origins := stampLastPurge db.origins ts origin_id }

/-- The write list of `purge_cache`: first the `INSERT` of the purge
event, then the `UPDATE` of the origin's `last_purge`. -/
def purgeWrites (db : DB) (now : Nat) (origin_id : Nat)
    (purge_type target triggered_by : String) : List PurgeWrite :=
  [.insertEvent (purgeRow db now origin_id purge_type target triggered_by),
   .stampOrigin (.pyLocal now) origin_id]

/-- `sqlite3` connection-context-manager semantics for a write sequence:
all writes run inside one implicit transaction on the state at entry; on
clean exit the transaction commits, and an exception anywhere in the
block (modelled by `failAt = some i`, an exception at write `i` or — for
`i ≥` the number of writes — at `conn.commit()`) makes `__exit__` roll
the transaction back to the entry state.  Returns the resulting store and
whether the block completed. -/
def runTxn (db : DB) (writes : List PurgeWrite) (failAt : Option Nat) : DB × Bool :=
  match failAt with
  | some _ => (db, false)
  | none => (writes.foldl applyPurgeWrite db, true)

/-- `purge_cache` with an explicit fault model: the same write list as
`purge_cache`, run under the transaction semantics of `runTxn`. -/
def purge_cache_txn (db : DB) (now : Nat) (origin_id : Nat)
    (purge_type target triggered_by : String) (failAt : Option Nat) : DB × Bool :=
  runTxn db (purgeWrites db now origin_id purge_type target triggered_by) failAt

/-- Store well-formedness maintained by every operation: each table's
`AUTOINCREMENT` counter is strictly above every id in the table (true of
`initialDB` and preserved below), which is what makes freshly assigned
ids strictly larger than all existing ones. -/
def WF (db : DB) : Prop :=
  (∀ o ∈ db.origins, o.id < db.next_origin_id) ∧
  (∀ r ∈ db.cache_rules, r.id < db.next_rule_id) ∧
  (∀ e ∈ db.purge_events, e.id < db.next_purge_id)

instance (db : DB) : Decidable (WF db) := by
  unfold WF; infer_instance

/-! ## Helper lemmas and order instances -/

/-- Total value of a Python counting dict. -/
def sumCounts (m : List (String × Nat)) : Nat :=
  (m.map Prod.snd).sum

theorem sumCounts_bumpCount (m : List (String × Nat)) (k : String) :
    sumCounts (bumpCount m k) = sumCounts m + 1 := by
  induction m with
  | nil => rfl
  | cons e rest ih =>
      obtain ⟨k', n⟩ := e
      by_cases h : k' = k <;> simp [bumpCount, h, sumCounts, List.sum_cons] at ih ⊢ <;> omega

theorem sumCounts_foldl (f : CDNOrigin → String) :
    ∀ (l : List CDNOrigin) (m : List (String × Nat)),
      sumCounts (l.foldl (fun m o => bumpCount m (f o)) m) = sumCounts m + l.length
  | [], _ => by simp
  | o :: l, m => by
      rw [List.foldl_cons, sumCounts_foldl f l, sumCounts_bumpCount]
      simp; omega

theorem Timestamp.strLe_total (a b : Timestamp) : a.strLe b = true ∨ b.strLe a = true := by
  cases a <;> cases b <;> simp [Timestamp.strLe] <;> omega

theorem Timestamp.strLe_trans {a b c : Timestamp}
    (h₁ : a.strLe b = true) (h₂ : b.strLe c = true) : a.strLe c = true := by
  cases a <;> cases b <;> cases c <;>
    simp [Timestamp.strLe] at h₁ h₂ ⊢ <;> omega

instance : IsTotal CDNOrigin (fun a b => a.name ≤ b.name) :=
  ⟨fun a b => le_total a.name b.name⟩

instance : IsTrans CDNOrigin (fun a b => a.name ≤ b.name) :=
  ⟨fun _ _ _ h₁ h₂ => le_trans h₁ h₂⟩

instance : IsTotal PurgeEventRow (fun a b => b.created_at.strLe a.created_at) :=
  ⟨fun a b => (Timestamp.strLe_total b.created_at a.created_at).elim Or.inl Or.inr⟩

instance : IsTrans PurgeEventRow (fun a b => b.created_at.strLe a.created_at) :=
  ⟨fun _ _ _ h₁ h₂ => Timestamp.strLe_trans h₂ h₁⟩

theorem stampLastPurge_of_missing (origins : List CDNOrigin) (ts : Timestamp)
    (origin_id : Nat) (h : ∀ o ∈ origins, o.id ≠ origin_id) :
    stampLastPurge origins ts origin_id = origins := by
  unfold stampLastPurge
  rw [List.map_congr_left (g := id) ?_, List.map_id]
  intro o ho
  simp [h o ho]

theorem find?_append_of_none {α : Type} (p : α → Bool) (l₁ l₂ : List α)
    (h : ∀ x ∈ l₁, p x = false) : (l₁ ++ l₂).find? p = l₂.find? p := by
  induction l₁ with
  | nil => rfl
  | cons a l ih =>
      simp only [List.cons_append, List.find?_cons, h a (by simp)]
      exact ih (fun x hx => h x (by simp [hx]))

/-! ## Concrete stores used by witnesses and counterexamples -/

/-- The store after registering the origin `"shop"` at clock reading 1000
on a fresh database (the end-to-end scenario of the spec). -/
def shopDB : DB :=
  (add_origin initialDB 1000 "shop" "https://origin.example.com"
    "https://cdn.example.com" "cloudflare" 7200 "").2

/-! ## Claim theorems -/

/-- C3: registering an origin whose `name` already exists fails with the
unique-constraint violation, creates no row, and leaves the stored
origins (indeed the whole store) unchanged. -/
theorem add_origin_duplicate_name (db : DB) (now : Nat)
    (name origin_url cdn_url provider : String) (cache_ttl : Int) (notes : String)
    (h : ∃ o ∈ db.origins, o.name = name) :
    add_origin db now name origin_url cdn_url provider cache_ttl notes
      = (.error .uniqueConstraint, db) := by
  obtain ⟨o, ho, hname⟩ := h
  unfold add_origin
  rw [if_pos (List.any_eq_true.mpr ⟨o, ho, by simp [hname]⟩)]

/-- C3 witness: after registering `"shop"`, registering `"shop"` again
fails with the unique-constraint violation and the store is unchanged. -/
theorem add_origin_duplicate_name_witness :
    (∃ o ∈ shopDB.origins, o.name = "shop") ∧
    add_origin shopDB 2000 "shop" "u" "c" "fastly" 60 ""
      = (.error .uniqueConstraint, shopDB) :=
  ⟨by decide, add_origin_duplicate_name shopDB 2000 "shop" "u" "c" "fastly" 60 "" (by decide)⟩

/-- C6: `cdn_status` reports `total_origins` equal to the length of the
unfiltered `list_origins`, and both the `by_provider` and the `by_status`
counts sum to `total_origins`. -/
theorem cdn_status_totals (db : DB) (now : Nat) :
    (cdn_status db now).total_origins = (list_origins db none).length ∧
    sumCounts (cdn_status db now).by_provider = (cdn_status db now).total_origins ∧
    sumCounts (cdn_status db now).by_status = (cdn_status db now).total_origins := by
  refine ⟨rfl, ?_, ?_⟩ <;>
    simp only [cdn_status] <;>
    rw [sumCounts_foldl] <;>
    simp [sumCounts]

/-- C10 counterexample: calling `add_cache_rule` on the one-origin store,
the stored row's `created_at` (the insert-time column default) is not the
returned `CacheRule`'s `created_at` (which is `None`): the returned
object does not match the stored row on `created_at`. -/
theorem add_cache_rule_created_at_cex :
    ((add_cache_rule shopDB 2000 1 "/static/*" 3600 true "cache").2.cache_rules.getLast?.map
        CacheRuleRow.created_at)
      ≠ (add_cache_rule shopDB 2000 1 "/static/*" 3600 true "cache").1.created_at := by
  decide

/-- C10 amended: the returned `CacheRule` carries the newly assigned id
and matches the stored row on `origin_id`, `path_pattern`, `ttl`,
`cache_headers` and `rule_type`, but its `created_at` is `None`, whereas
the stored row's `created_at` is the insert-time column default. -/
theorem add_cache_rule_returns_populated (db : DB) (now : Nat) (origin_id : Nat)
    (path_pattern : String) (ttl : Int) (cache_headers : Bool) (rule_type : String) :
    (add_cache_rule db now origin_id path_pattern ttl cache_headers rule_type).2.cache_rules
        = db.cache_rules ++
          [{ id := db.next_rule_id, origin_id, path_pattern, ttl, cache_headers
             rule_type, created_at := .sqlUtc now }] ∧
    (add_cache_rule db now origin_id path_pattern ttl cache_headers rule_type).1
        = { id := db.next_rule_id, origin_id, path_pattern, ttl, cache_headers
            rule_type, created_at := none } :=
  ⟨rfl, rfl⟩

/-- C1: evaluating `purge_cache` on the one-origin store at clock reading
2000.  The store does gain a purge event with `origin_id = 1` and status
`"queued"`, and origin 1's `last_purge` is set — but `last_purge` is the
Python `datetime.now().isoformat()` string while the stored event's
`created_at` is the column default `CURRENT_TIMESTAMP` string, and the
two (different formats, see `Timestamp`) are not equal; only the
*returned* `PurgeEvent` object carries the `last_purge` timestamp. -/
theorem purge_cache_timestamp_mismatch :
    ((purge_cache shopDB 2000 1 "path" "/images/*" "cli").2.purge_events.map
        (fun e => (e.origin_id, e.status, e.created_at))
      = [(1, "queued", Timestamp.sqlUtc 2000)]) ∧
    ((purge_cache shopDB 2000 1 "path" "/images/*" "cli").2.origins.map
        (fun o => o.last_purge)
      = [some (Timestamp.pyLocal 2000)]) ∧
    ((purge_cache shopDB 2000 1 "path" "/images/*" "cli").1.created_at
      = Timestamp.pyLocal 2000) ∧
    ((purge_cache shopDB 2000 1 "path" "/images/*" "cli").2.purge_events.all
        (fun e => (purge_cache shopDB 2000 1 "path" "/images/*" "cli").2.origins.all
          (fun o => o.last_purge ≠ some e.created_at))
      = true) := by
  decide

/-- C2: `purge_cache`'s two writes run inside one connection context
(one transaction): under the fault model of `purge_cache_txn`, a
completed block yields exactly the `purge_cache` post-state — the purge
event appended and the origin's `last_purge` stamped — and a failure
anywhere in the block leaves the store exactly as it was. -/
theorem purge_cache_atomic (db : DB) (now : Nat) (origin_id : Nat)
    (purge_type target triggered_by : String) (failAt : Option Nat) :
    ((purge_cache_txn db now origin_id purge_type target triggered_by failAt).2 = true →
      (purge_cache_txn db now origin_id purge_type target triggered_by failAt).1
        = (purge_cache db now origin_id purge_type target triggered_by).2) ∧
    ((purge_cache_txn db now origin_id purge_type target triggered_by failAt).2 = false →
      (purge_cache_txn db now origin_id purge_type target triggered_by failAt).1 = db) ∧
    (purge_cache db now origin_id purge_type target triggered_by).2.purge_events
      = db.purge_events ++ [purgeRow db now origin_id purge_type target triggered_by] ∧
    (purge_cache db now origin_id purge_type target triggered_by).2.origins
      = stampLastPurge db.origins (.pyLocal now) origin_id := by
  cases failAt <;>
    simp [purge_cache_txn, runTxn, purgeWrites, applyPurgeWrite, purge_cache, purgeRow]

/-- C2 witness: on the one-origin store, a fault at the first write rolls
back to the prior store, and a fault-free run gives the `purge_cache`
post-state. -/
theorem purge_cache_atomic_witness :
    ((purge_cache_txn shopDB 2000 1 "full" "*" "cli" (some 0)).1 = shopDB) ∧
    ((purge_cache_txn shopDB 2000 1 "full" "*" "cli" none).1
      = (purge_cache shopDB 2000 1 "full" "*" "cli").2) :=
  ⟨(purge_cache_atomic shopDB 2000 1 "full" "*" "cli" (some 0)).2.1 rfl,
   (purge_cache_atomic shopDB 2000 1 "full" "*" "cli" none).1 rfl⟩

/-- C4 counterexample: on a store holding one origin with provider
`"cloudflare"`, filtering by the provider value `""` does not return the
origins whose provider equals `""` (there are none): the Python guard
`if provider:` is falsy for the empty string, so the call returns all
origins instead. -/
theorem list_origins_empty_filter_cex :
    list_origins shopDB (some "")
      ≠ sortByName (shopDB.origins.filter (fun o => o.provider = "")) := by
  decide

/-- C4 amended: for every NON-EMPTY provider value the filter returns
exactly the origins with that provider, sorted ascending by name (so a
filter matching nothing yields the empty sequence); no filter returns all
origins in the same order; and the empty-string filter behaves like no
filter rather than as an exact-match filter. -/
theorem list_origins_filter_sorted (db : DB) (p : String) (hp : p ≠ "") :
    (list_origins db (some p)).Perm (db.origins.filter (fun o => o.provider = p)) ∧
    List.Sorted (fun a b => a.name ≤ b.name) (list_origins db (some p)) ∧
    (list_origins db none).Perm db.origins ∧
    List.Sorted (fun a b => a.name ≤ b.name) (list_origins db none) ∧
    list_origins db (some "") = list_origins db none := by
  refine ⟨?_, ?_, ?_, ?_, ?_⟩
  · simp only [list_origins, if_pos hp]
    exact List.perm_insertionSort _ _
  · simp only [list_origins, if_pos hp]
    exact List.sorted_insertionSort _ _
  · exact List.perm_insertionSort _ _
  · exact List.sorted_insertionSort _ _
  · rfl

/-- C4 witness: the amended statement at the one-origin store with the
filter value `"fastly"` (matching nothing). -/
theorem list_origins_filter_sorted_witness :
    ("fastly" ≠ "") ∧
    ((list_origins shopDB (some "fastly")).Perm
        (shopDB.origins.filter (fun o => o.provider = "fastly")) ∧
      List.Sorted (fun a b => a.name ≤ b.name) (list_origins shopDB (some "fastly")) ∧
      (list_origins shopDB none).Perm shopDB.origins ∧
      List.Sorted (fun a b => a.name ≤ b.name) (list_origins shopDB none) ∧
      list_origins shopDB (some "") = list_origins shopDB none) :=
  ⟨by decide, list_origins_filter_sorted shopDB "fastly" (by decide)⟩

/-- C5: for an `origin_id` present in no origin row, both operations
silently succeed under the one uniform policy: `add_cache_rule` appends
an orphaned rule row and touches no origin, and `purge_cache` appends an
orphaned purge event while its `UPDATE` matches no row, so the origins
table is unchanged; neither raises any error. -/
theorem missing_origin_id_policy (db : DB) (now : Nat) (origin_id : Nat)
    (path_pattern : String) (ttl : Int) (cache_headers : Bool)
    (rule_type purge_type target triggered_by : String)
    (h : ∀ o ∈ db.origins, o.id ≠ origin_id) :
    (add_cache_rule db now origin_id path_pattern ttl cache_headers rule_type).2.cache_rules
      = db.cache_rules ++
        [{ id := db.next_rule_id, origin_id, path_pattern, ttl, cache_headers
           rule_type, created_at := .sqlUtc now }] ∧
    (add_cache_rule db now origin_id path_pattern ttl cache_headers rule_type).2.origins
      = db.origins ∧
    (add_cache_rule db now origin_id path_pattern ttl cache_headers rule_type).1.origin_id
      = origin_id ∧
    (purge_cache db now origin_id purge_type target triggered_by).2.purge_events
      = db.purge_events ++ [purgeRow db now origin_id purge_type target triggered_by] ∧
    (purge_cache db now origin_id purge_type target triggered_by).2.origins
      = db.origins ∧
    (purge_cache db now origin_id purge_type target triggered_by).1.status = "queued" := by
  refine ⟨rfl, rfl, rfl, rfl, ?_, rfl⟩
  exact stampLastPurge_of_missing db.origins _ origin_id h

/-- C5 witness: on the one-origin store (whose only origin has id 1), the
nonexistent id 99 is accepted by both operations, orphaning the new rows
and leaving the origins untouched. -/
theorem missing_origin_id_policy_witness :
    (∀ o ∈ shopDB.origins, o.id ≠ 99) ∧
    ((add_cache_rule shopDB 2000 99 "/x/*" 60 true "bypass").2.cache_rules
      = shopDB.cache_rules ++
        [{ id := shopDB.next_rule_id, origin_id := 99, path_pattern := "/x/*", ttl := 60
           cache_headers := true, rule_type := "bypass", created_at := .sqlUtc 2000 }] ∧
     (add_cache_rule shopDB 2000 99 "/x/*" 60 true "bypass").2.origins = shopDB.origins ∧
     (add_cache_rule shopDB 2000 99 "/x/*" 60 true "bypass").1.origin_id = 99 ∧
     (purge_cache shopDB 2000 99 "full" "*" "cli").2.purge_events
      = shopDB.purge_events ++ [purgeRow shopDB 2000 99 "full" "*" "cli"] ∧
     (purge_cache shopDB 2000 99 "full" "*" "cli").2.origins = shopDB.origins ∧
     (purge_cache shopDB 2000 99 "full" "*" "cli").1.status = "queued") :=
  ⟨by decide,
   missing_origin_id_policy shopDB 2000 99 "/x/*" 60 true "bypass" "full" "*" "cli" (by decide)⟩

/-- The 24-hour window predicate of claim C7: the event's clock reading
lies in the 24 hours preceding the reading `now`. -/
def within24h (now : Nat) (e : PurgeEventRow) : Bool :=
  decide (now - 86400 < e.created_at.instant) && decide (e.created_at.instant ≤ now)

/-- C7: when every stored purge event carries a store-format
(`CURRENT_TIMESTAMP`) `created_at` no later than the call time — true of
every store the program can produce — `purges_24h` counts exactly the
events created within the 24 hours preceding the call; in particular an
event 25 hours (90000 s) in the past is excluded and one 1 hour (3600 s)
in the past is included. -/
theorem cdn_status_purges_24h (db : DB) (now : Nat) (h24 : 86400 ≤ now)
    (hrows : ∀ e ∈ db.purge_events,
      e.created_at.isSqlUtc = true ∧ e.created_at.instant ≤ now) :
    (cdn_status db now).purges_24h = (db.purge_events.filter (within24h now)).length ∧
    ∀ e ∈ db.purge_events,
      (e.created_at.instant + 90000 = now → e ∉ db.purge_events.filter (within24h now)) ∧
      (e.created_at.instant + 3600 = now → e ∈ db.purge_events.filter (within24h now)) := by
  constructor
  · simp only [cdn_status]
    congr 1
    refine List.filter_congr ?_
    intro e he
    obtain ⟨hsql, hle⟩ := hrows e he
    cases hts : e.created_at with
    | pyLocal t => rw [hts] at hsql; simp [Timestamp.isSqlUtc] at hsql
    | sqlUtc t =>
        rw [hts] at hle
        simp only [within24h, hts, Timestamp.strLe, Timestamp.instant] at hle ⊢
        by_cases h : t ≤ now - 86400 <;> simp [h] <;> omega
  · intro e he
    constructor
    · intro hpast
      simp only [List.mem_filter, within24h]
      rintro ⟨-, hcond⟩
      simp only [Bool.and_eq_true, decide_eq_true_eq] at hcond
      omega
    · intro hrecent
      simp only [List.mem_filter, within24h]
      refine ⟨he, ?_⟩
      simp only [Bool.and_eq_true, decide_eq_true_eq]
      omega

/-- A store with two artificially timestamped purge events: one 25 hours
and one 1 hour before the clock reading 172800. -/
def purgesDB : DB :=
  { origins := [], cache_rules := []
    purge_events :=
      [{ id := 1, origin_id := 1, purge_type := "full", target := "*"
         status := "queued", triggered_by := "cli", created_at := .sqlUtc 82800 },
       { id := 2, origin_id := 1, purge_type := "full", target := "*"
         status := "queued", triggered_by := "cli", created_at := .sqlUtc 169200 }]
    next_origin_id := 1, next_rule_id := 1, next_purge_id := 3 }

/-- C7 witness: on `purgesDB` at reading 172800 the hypotheses hold, the
count matches the 24-hour window filter, and the 25-hour-old event is
excluded while the 1-hour-old one is included. -/
theorem cdn_status_purges_24h_witness :
    (86400 ≤ 172800) ∧
    (∀ e ∈ purgesDB.purge_events,
      e.created_at.isSqlUtc = true ∧ e.created_at.instant ≤ 172800) ∧
    ((cdn_status purgesDB 172800).purges_24h
        = (purgesDB.purge_events.filter (within24h 172800)).length ∧
      ∀ e ∈ purgesDB.purge_events,
        (e.created_at.instant + 90000 = 172800 →
          e ∉ purgesDB.purge_events.filter (within24h 172800)) ∧
        (e.created_at.instant + 3600 = 172800 →
          e ∈ purgesDB.purge_events.filter (within24h 172800))) :=
  ⟨by decide, by decide, cdn_status_purges_24h purgesDB 172800 (by decide) (by decide)⟩

/-- C8: on a fresh store `WF` holds, and from any well-formed store each
successful insertion — `add_origin` with a fresh name, `add_cache_rule`,
`purge_cache` — assigns the table's counter as the new entity's id, that
id is strictly greater than every id already present in the table (hence
greater than every previously assigned id: no operation ever removes a
row), the counter strictly increases, and `WF` is preserved, so the
argument iterates over any sequence of insertions. -/
theorem assigned_ids_monotonic (db : DB) (hWF : WF db) (now : Nat)
    (name origin_url cdn_url provider : String) (cache_ttl : Int) (notes : String)
    (rule_origin : Nat) (path_pattern : String) (rule_ttl : Int)
    (cache_headers : Bool) (rule_type : String)
    (purge_origin : Nat) (purge_type target triggered_by : String)
    (hname : ∀ o ∈ db.origins, o.name ≠ name) :
    WF initialDB ∧
    (add_origin db now name origin_url cdn_url provider cache_ttl notes).1
      = .ok (some { id := db.next_origin_id, name, origin_url, cdn_url, provider
                    status := "active", cache_ttl, notes
                    created_at := .sqlUtc now, last_purge := none }) ∧
    (∀ o ∈ db.origins, o.id < db.next_origin_id) ∧
    (add_origin db now name origin_url cdn_url provider cache_ttl notes).2.next_origin_id
      = db.next_origin_id + 1 ∧
    WF (add_origin db now name origin_url cdn_url provider cache_ttl notes).2 ∧
    (add_cache_rule db now rule_origin path_pattern rule_ttl cache_headers rule_type).1.id
      = db.next_rule_id ∧
    (∀ r ∈ db.cache_rules, r.id < db.next_rule_id) ∧
    (add_cache_rule db now rule_origin path_pattern rule_ttl cache_headers rule_type).2.next_rule_id
      = db.next_rule_id + 1 ∧
    WF (add_cache_rule db now rule_origin path_pattern rule_ttl cache_headers rule_type).2 ∧
    (purge_cache db now purge_origin purge_type target triggered_by).1.id
      = db.next_purge_id ∧
    (∀ e ∈ db.purge_events, e.id < db.next_purge_id) ∧
    (purge_cache db now purge_origin purge_type target triggered_by).2.next_purge_id
      = db.next_purge_id + 1 ∧
    WF (purge_cache db now purge_origin purge_type target triggered_by).2 := by
  obtain ⟨hwo, hwr, hwp⟩ := hWF
  have hnodup : db.origins.any (fun o => o.name = name) = false := by
    rw [List.any_eq_false]
    intro o ho
    simp [hname o ho]
  have hfresh : ∀ o ∈ db.origins, (decide (o.id = db.next_origin_id)) = false := by
    intro o ho
    have := hwo o ho
    simp; omega
  refine ⟨by decide, ?_, hwo, ?_, ?_, rfl, hwr, rfl, ?_, rfl, hwp, rfl, ?_⟩
  · simp only [add_origin, hnodup, Bool.false_eq_true, if_false, getOrigin]
    rw [find?_append_of_none _ _ _ hfresh]
    simp [List.find?_cons]
  · simp [add_origin, hnodup]
  · simp only [add_origin, hnodup, Bool.false_eq_true, if_false]
    refine ⟨?_, ?_, ?_⟩
    · intro o ho
      simp only [List.mem_append, List.mem_singleton] at ho
      rcases ho with ho | rfl
      · exact Nat.lt_succ_of_lt (hwo o ho)
      · exact Nat.lt_succ_self _
    · exact hwr
    · exact hwp
  · refine ⟨hwo, ?_, hwp⟩
    intro r hr
    simp only [add_cache_rule, List.mem_append, List.mem_singleton] at hr
    rcases hr with hr | rfl
    · exact Nat.lt_succ_of_lt (hwr r hr)
    · exact Nat.lt_succ_self _
  · refine ⟨?_, hwr, ?_⟩
    · intro o ho
      simp only [purge_cache, stampLastPurge, List.mem_map] at ho
      obtain ⟨o', ho', rfl⟩ := ho
      have := hwo o' ho'
      split <;> simpa
    · intro e he
      simp only [purge_cache, List.mem_append, List.mem_singleton, purgeRow] at he
      rcases he with he | rfl
      · exact Nat.lt_succ_of_lt (hwp e he)
      · exact Nat.lt_succ_self _

/-- C8 witness: the one-step statement at the one-origin store (which is
well-formed) with the fresh origin name `"blog"`. -/
theorem assigned_ids_monotonic_witness :
    WF shopDB ∧ (∀ o ∈ shopDB.origins, o.name ≠ "blog") ∧
    (WF initialDB ∧
      (add_origin shopDB 2000 "blog" "u" "c" "fastly" 60 "x").1
        = .ok (some { id := shopDB.next_origin_id, name := "blog", origin_url := "u"
                      cdn_url := "c", provider := "fastly", status := "active"
                      cache_ttl := 60, notes := "x"
                      created_at := .sqlUtc 2000, last_purge := none }) ∧
      (∀ o ∈ shopDB.origins, o.id < shopDB.next_origin_id) ∧
      (add_origin shopDB 2000 "blog" "u" "c" "fastly" 60 "x").2.next_origin_id
        = shopDB.next_origin_id + 1 ∧
      WF (add_origin shopDB 2000 "blog" "u" "c" "fastly" 60 "x").2 ∧
      (add_cache_rule shopDB 2000 1 "/a/*" 60 true "cache").1.id = shopDB.next_rule_id ∧
      (∀ r ∈ shopDB.cache_rules, r.id < shopDB.next_rule_id) ∧
      (add_cache_rule shopDB 2000 1 "/a/*" 60 true "cache").2.next_rule_id
        = shopDB.next_rule_id + 1 ∧
      WF (add_cache_rule shopDB 2000 1 "/a/*" 60 true "cache").2 ∧
      (purge_cache shopDB 2000 1 "full" "*" "cli").1.id = shopDB.next_purge_id ∧
      (∀ e ∈ shopDB.purge_events, e.id < shopDB.next_purge_id) ∧
      (purge_cache shopDB 2000 1 "full" "*" "cli").2.next_purge_id
        = shopDB.next_purge_id + 1 ∧
      WF (purge_cache shopDB 2000 1 "full" "*" "cli").2) :=
  ⟨by decide, by decide,
   assigned_ids_monotonic shopDB (by decide) 2000 "blog" "u" "c" "fastly" 60 "x"
     1 "/a/*" 60 true "cache" 1 "full" "*" "cli" (by decide)⟩

/-- C9: the export payload carries the export timestamp, the origins
exactly as the unfiltered `list_origins`, all cache rules in insertion
order, and at most 100 purge events which are sorted by `created_at`
descending and dominate every event left out (so they are the most
recent ones): some left-out remainder completes them to all stored
events, and every left-out event's `created_at` is at or below that of
every exported one. -/
theorem export_json_payload (db : DB) (now : Nat) :
    (export_json db now).exported_at = Timestamp.pyLocal now ∧
    (export_json db now).origins = list_origins db none ∧
    (export_json db now).cache_rules = db.cache_rules ∧
    (export_json db now).recent_purge_events.length = min 100 db.purge_events.length ∧
    List.Sorted (fun a b => b.created_at.strLe a.created_at)
      (export_json db now).recent_purge_events ∧
    ∃ dropped,
      ((export_json db now).recent_purge_events ++ dropped).Perm db.purge_events ∧
      dropped.all (fun b => (export_json db now).recent_purge_events.all
        (fun a => b.created_at.strLe a.created_at)) = true := by
  have hperm : (sortByCreatedDesc db.purge_events).Perm db.purge_events :=
    List.perm_insertionSort _ _
  have hsorted : List.Sorted (fun a b => b.created_at.strLe a.created_at)
      (sortByCreatedDesc db.purge_events) :=
    List.sorted_insertionSort _ _
  refine ⟨rfl, rfl, rfl, ?_, ?_, ?_⟩
  · simp only [export_json, List.length_take, hperm.length_eq]
  · exact List.Pairwise.sublist (List.take_sublist _ _) hsorted
  · refine ⟨(sortByCreatedDesc db.purge_events).drop 100, ?_, ?_⟩
    · simpa only [export_json, List.take_append_drop] using hperm
    · have hsplit : List.Pairwise (fun a b => b.created_at.strLe a.created_at)
          ((sortByCreatedDesc db.purge_events).take 100
            ++ (sortByCreatedDesc db.purge_events).drop 100) := by
        rw [List.take_append_drop]
        exact hsorted
      have hcross := (List.pairwise_append.mp hsplit).2.2
      rw [List.all_eq_true]
      intro b hb
      rw [List.all_eq_true]
      intro a ha
      exact hcross a ha b hb
